import Mathlib

/-!
Shallow embedding of the transactional-outbox subsystem of the
flowcatalyst/typescript-sdk repository: the TSID generator
(`dist/outbox/tsid.js`), the three message DTO builders
(`dist/outbox/create-event-dto.js`, `create-dispatch-job-dto.js`,
`create-audit-log-dto.js`), the outbox message model
(`src/outbox/types.ts`) and the `OutboxManager`
(`dist/outbox/outbox-manager.js`).

Modelling conventions:
- JavaScript objects used as string-keyed records are association lists
  `List (String × α)` preserving insertion order (JS object key order for
  string keys is insertion order).
- A JS value that may be `null`/`undefined` is an `Option`.
- JS `Date` values are represented by their ISO-8601 rendering (the only
  observation the outbox code ever makes of a `Date` is `toISOString()`),
  and the nondeterministic clock and random source are oracle parameters.
- Machine integers are `Nat`; the TSID value composition uses BigInt
  arithmetic in the source, which is unbounded exactly like `Nat` for the
  non-negative range the claims quantify over.
-/

/-! ## JSON values and serialization (modelling JSON.stringify) -/

/-- A JSON value, the codomain of the DTO payload mappings.  JS `null` inside
a JSON document is `Json.null`; absence (`null`/`undefined` of an optional
DTO field before filtering) is modelled by `Option Json` instead. -/
inductive Json where
  | null : Json
  | bool (b : Bool) : Json
  | num (n : Int) : Json
  | str (s : String) : Json
  | arr (elems : List Json) : Json
  | obj (fields : List (String × Json)) : Json

/-- Hexadecimal digit for JSON \uXXXX escapes (lowercase, as JSON.stringify emits). -/
def hexDigit (n : Nat) : Char :=
  if n < 10 then Char.ofNat (48 + n) else Char.ofNat (87 + n)

/-- Escape one character the way JSON.stringify escapes string contents. -/
def escapeJsonChar (c : Char) : String :=
  if c = '"' then "\\\""
  else if c = '\\' then "\\\\"
  else if c = Char.ofNat 8 then "\\b"
  else if c = Char.ofNat 9 then "\\t"
  else if c = Char.ofNat 10 then "\\n"
  else if c = Char.ofNat 12 then "\\f"
  else if c = Char.ofNat 13 then "\\r"
  else if c.toNat < 32 then
    "\\u00" ++ String.mk [hexDigit (c.toNat / 16), hexDigit (c.toNat % 16)]
  else String.singleton c

/-- Escape a string body the way JSON.stringify does. -/
def escapeJson (s : String) : String :=
  String.join (s.data.map escapeJsonChar)

/-- A JSON string literal: quoted and escaped. -/
def jsonQuote (s : String) : String :=
  "\"" ++ escapeJson s ++ "\""

mutual

/-- `JSON.stringify` restricted to the JSON value model (no spacing argument,
exactly as the outbox code calls it). -/
def Json.stringify : Json → String
  | .null => "null"
  | .bool true => "true"
  | .bool false => "false"
  | .num n => toString n
  | .str s => jsonQuote s
  | .arr elems => "[" ++ Json.stringifyElems elems ++ "]"
  | .obj fields => "\x7b" ++ Json.stringifyFields fields ++ "\x7d"

/-- Comma-separated serialization of array elements. -/
def Json.stringifyElems : List Json → String
  | [] => ""
  | [j] => Json.stringify j
  | j :: rest => Json.stringify j ++ "," ++ Json.stringifyElems rest

/-- Comma-separated serialization of object fields, insertion order. -/
def Json.stringifyFields : List (String × Json) → String
  | [] => ""
  | [(k, v)] => jsonQuote k ++ ":" ++ Json.stringify v
  | (k, v) :: rest => jsonQuote k ++ ":" ++ Json.stringify v ++ "," ++ Json.stringifyFields rest

end

/-! ## String-keyed record helpers (JS object spread and key lookup) -/

/-- JS object spread merge: the record literal written as
spread of old then spread of new.  Keys of `old` keep their
position (with the value overridden by `new` when `new` also has the key);
keys only in `new` are appended in the order of `new`. -/
def mergeObj (old new : List (String × String)) : List (String × String) :=
  old.map (fun kv => (kv.1, ((new.lookup kv.1).getD kv.2)))
    ++ new.filter (fun kv => (old.lookup kv.1).isNone)

/-- Value under a key in an association list, mirroring JS property lookup
on objects built by the outbox code (which never duplicate keys). -/
def lookupKey (obj : List (String × Json)) (k : String) : Option Json :=
  obj.lookup k

/-! ## TSID generator (`dist/outbox/tsid.js`) -/

def CROCKFORD_ALPHABET : String := "0123456789ABCDEFGHJKMNPQRSTVWXYZ"

def TSID_LENGTH : Nat := 13

def RANDOM_BITS : Nat := 22

def RANDOM_MASK : Nat := (1 <<< RANDOM_BITS) - 1

/-- Custom epoch: 2020-01-01T00:00:00Z in ms since the Unix epoch. -/
def CUSTOM_EPOCH : Nat := 1577836800000

/-- Indexing into the alphabet string, as `CROCKFORD_ALPHABET[d]` for `d < 32`. -/
def alphabetChar (d : Nat) : Char :=
  CROCKFORD_ALPHABET.data.getD d '0'

/-- The encoding loop of `encodeCrockford`: fill positions from the last to
the first, taking 5 bits at a time (`remaining & 31n`, `remaining >>= 5n`).
`encodeCharsAux n v` is the list of the last `n` characters. -/
def encodeCharsAux : Nat → Nat → List Char
  | 0, _ => []
  | n + 1, remaining => encodeCharsAux n (remaining >>> 5) ++ [alphabetChar (remaining &&& 31)]

/-- `encodeCrockford(value)`: 13 base-32 symbols, most significant first. -/
def encodeCrockford (value : Nat) : String :=
  String.mk (encodeCharsAux TSID_LENGTH value)

/-- `generate()`, with the clock reading `Date.now()` and the draw
`Math.floor(Math.random() * (RANDOM_MASK + 1))` passed as oracle arguments.
The claims only quantify over clocks at or after the custom epoch, where the
BigInt arithmetic of the source coincides with `Nat` arithmetic. -/
def generate (nowMs random : Nat) : String :=
  encodeCrockford (((nowMs - CUSTOM_EPOCH) <<< RANDOM_BITS) ||| random)

/-- `isValid(tsid)`: length is exactly 13 and every character of the
uppercased string is in the alphabet.  JS `String.prototype.toUpperCase`
(the Unicode uppercase mapping, a host primitive like the clock and the
random source) is passed as the oracle argument `up`; the source computes
`up tsid` once and scans its characters. -/
def isValid (up : String → String) (tsid : String) : Bool :=
  if tsid.length ≠ TSID_LENGTH then false
  else ((up tsid).data.all (fun c => CROCKFORD_ALPHABET.data.contains c))

/-- JS string comparison `a < b`: lexicographic on code units, with a proper
prefix comparing less. -/
def lexLt : List Char → List Char → Bool
  | [], [] => false
  | [], _ :: _ => true
  | _ :: _, [] => false
  | a :: as, b :: bs => if a < b then true else if a = b then lexLt as bs else false

/-- JS `id1 < id2` on strings. -/
def strLt (a b : String) : Bool :=
  lexLt a.data b.data

/-! ## DTO builders -/

/-- `filterNulls(obj)`: keep exactly the entries whose value is neither
`null` nor `undefined`; order is preserved.  Nullability of the pre-filter
values is modelled by `Option`. -/
def filterNulls (obj : List (String × Option Json)) : List (String × Json) :=
  obj.filterMap (fun kv => kv.2.map (fun v => (kv.1, v)))

/-- Render a string-to-string record as a JSON object value. -/
def strMapJson (m : List (String × String)) : Json :=
  .obj (m.map (fun kv => (kv.1, .str kv.2)))

/-- Render one `{key, value}` context-data entry. -/
def contextEntryJson (e : String × String) : Json :=
  .obj [("key", .str e.1), ("value", .str e.2)]

/-- `CreateEventDto` (`dist/outbox/create-event-dto.js`).  The defaults are
the `?? null` / `?? []` / `?? {}` fallbacks of the constructor, which fire
exactly at `create` (the with-methods always pass every field). -/
structure CreateEventDto where
  type : String
  data : List (String × Json)
  source : Option String := none
  subject : Option String := none
  correlationId : Option String := none
  causationId : Option String := none
  deduplicationId : Option String := none
  messageGroup : Option String := none
  contextData : List (String × String) := []
  headers : List (String × String) := []

def CreateEventDto.create (type : String) (data : List (String × Json)) : CreateEventDto :=
  { type, data }

def CreateEventDto.withSource (d : CreateEventDto) (source : String) : CreateEventDto :=
  { d with source := some source }

def CreateEventDto.withSubject (d : CreateEventDto) (subject : String) : CreateEventDto :=
  { d with subject := some subject }

def CreateEventDto.withCorrelationId (d : CreateEventDto) (correlationId : String) : CreateEventDto :=
  { d with correlationId := some correlationId }

def CreateEventDto.withCausationId (d : CreateEventDto) (causationId : String) : CreateEventDto :=
  { d with causationId := some causationId }

def CreateEventDto.withDeduplicationId (d : CreateEventDto) (deduplicationId : String) : CreateEventDto :=
  { d with deduplicationId := some deduplicationId }

def CreateEventDto.withMessageGroup (d : CreateEventDto) (messageGroup : String) : CreateEventDto :=
  { d with messageGroup := some messageGroup }

def CreateEventDto.withHeaders (d : CreateEventDto) (headers : List (String × String)) : CreateEventDto :=
  { d with headers := mergeObj d.headers headers }

def CreateEventDto.withContextData (d : CreateEventDto) (contextData : List (String × String)) : CreateEventDto :=
  { d with contextData := d.contextData ++ contextData }

def CreateEventDto.toPayload (d : CreateEventDto) : List (String × Json) :=
  filterNulls [
    ("specVersion", some (.str "1.0")),
    ("type", some (.str d.type)),
    ("source", d.source.map .str),
    ("subject", d.subject.map .str),
    ("data", some (.str (Json.stringify (.obj d.data)))),
    ("correlationId", d.correlationId.map .str),
    ("causationId", d.causationId.map .str),
    ("deduplicationId", d.deduplicationId.map .str),
    ("messageGroup", d.messageGroup.map .str),
    ("contextData", if d.contextData.length > 0 then some (.arr (d.contextData.map contextEntryJson)) else none)
  ]

/-- `CreateDispatchJobDto` (`create-dispatch-job-dto.js`).  `Date`-typed
fields (`scheduledFor`, `expiresAt`) are modelled by their ISO-8601
rendering, the only observation `toPayload` makes of them. -/
structure CreateDispatchJobDto where
  source : String
  code : String
  targetUrl : String
  payload : String
  dispatchPoolId : String
  subject : Option String := none
  correlationId : Option String := none
  eventId : Option String := none
  metadata : List (String × String) := []
  headers : List (String × String) := []
  payloadContentType : String := "application/json"
  dataOnly : Bool := true
  messageGroup : Option String := none
  sequence : Option Int := none
  timeoutSeconds : Int := 30
  maxRetries : Int := 5
  retryStrategy : Option String := none
  scheduledFor : Option String := none
  expiresAt : Option String := none
  idempotencyKey : Option String := none
  externalId : Option String := none

/-- `CreateDispatchJobDto.create`: a string payload is stored unchanged; any
other (`Record<string, unknown>`) payload argument is `JSON.stringify`-ed. -/
def CreateDispatchJobDto.create (source code targetUrl : String) (payload : Json)
    (dispatchPoolId : String) : CreateDispatchJobDto :=
  { source, code, targetUrl,
    payload := match payload with
      | .str s => s
      | p => Json.stringify p,
    dispatchPoolId }

def CreateDispatchJobDto.withSubject (d : CreateDispatchJobDto) (subject : String) : CreateDispatchJobDto :=
  { d with subject := some subject }

def CreateDispatchJobDto.withCorrelationId (d : CreateDispatchJobDto) (correlationId : String) : CreateDispatchJobDto :=
  { d with correlationId := some correlationId }

def CreateDispatchJobDto.withEventId (d : CreateDispatchJobDto) (eventId : String) : CreateDispatchJobDto :=
  { d with eventId := some eventId }

def CreateDispatchJobDto.withMetadata (d : CreateDispatchJobDto) (metadata : List (String × String)) : CreateDispatchJobDto :=
  { d with metadata := mergeObj d.metadata metadata }

def CreateDispatchJobDto.withHeaders (d : CreateDispatchJobDto) (headers : List (String × String)) : CreateDispatchJobDto :=
  { d with headers := mergeObj d.headers headers }

def CreateDispatchJobDto.withPayloadContentType (d : CreateDispatchJobDto) (payloadContentType : String) : CreateDispatchJobDto :=
  { d with payloadContentType := payloadContentType }

def CreateDispatchJobDto.withDataOnly (d : CreateDispatchJobDto) (dataOnly : Bool) : CreateDispatchJobDto :=
  { d with dataOnly := dataOnly }

def CreateDispatchJobDto.withMessageGroup (d : CreateDispatchJobDto) (messageGroup : String) : CreateDispatchJobDto :=
  { d with messageGroup := some messageGroup }

def CreateDispatchJobDto.withSequence (d : CreateDispatchJobDto) (sequence : Int) : CreateDispatchJobDto :=
  { d with sequence := some sequence }

def CreateDispatchJobDto.withTimeoutSeconds (d : CreateDispatchJobDto) (timeoutSeconds : Int) : CreateDispatchJobDto :=
  { d with timeoutSeconds := timeoutSeconds }

def CreateDispatchJobDto.withMaxRetries (d : CreateDispatchJobDto) (maxRetries : Int) : CreateDispatchJobDto :=
  { d with maxRetries := maxRetries }

def CreateDispatchJobDto.withRetryStrategy (d : CreateDispatchJobDto) (retryStrategy : String) : CreateDispatchJobDto :=
  { d with retryStrategy := some retryStrategy }

def CreateDispatchJobDto.withScheduledFor (d : CreateDispatchJobDto) (scheduledFor : String) : CreateDispatchJobDto :=
  { d with scheduledFor := some scheduledFor }

def CreateDispatchJobDto.withExpiresAt (d : CreateDispatchJobDto) (expiresAt : String) : CreateDispatchJobDto :=
  { d with expiresAt := some expiresAt }

def CreateDispatchJobDto.withIdempotencyKey (d : CreateDispatchJobDto) (idempotencyKey : String) : CreateDispatchJobDto :=
  { d with idempotencyKey := some idempotencyKey }

def CreateDispatchJobDto.withExternalId (d : CreateDispatchJobDto) (externalId : String) : CreateDispatchJobDto :=
  { d with externalId := some externalId }

def CreateDispatchJobDto.toPayload (d : CreateDispatchJobDto) : List (String × Json) :=
  filterNulls [
    ("source", some (.str d.source)),
    ("code", some (.str d.code)),
    ("targetUrl", some (.str d.targetUrl)),
    ("payload", some (.str d.payload)),
    ("payloadContentType", some (.str d.payloadContentType)),
    ("dispatchPoolId", some (.str d.dispatchPoolId)),
    ("subject", d.subject.map .str),
    ("correlationId", d.correlationId.map .str),
    ("eventId", d.eventId.map .str),
    ("metadata", if d.metadata.length > 0 then some (strMapJson d.metadata) else none),
    ("headers", if d.headers.length > 0 then some (strMapJson d.headers) else none),
    ("dataOnly", some (.bool d.dataOnly)),
    ("messageGroup", d.messageGroup.map .str),
    ("sequence", d.sequence.map .num),
    ("timeoutSeconds", some (.num d.timeoutSeconds)),
    ("maxRetries", some (.num d.maxRetries)),
    ("retryStrategy", d.retryStrategy.map .str),
    ("scheduledFor", d.scheduledFor.map .str),
    ("expiresAt", d.expiresAt.map .str),
    ("idempotencyKey", d.idempotencyKey.map .str),
    ("externalId", d.externalId.map .str)
  ]

/-- `CreateAuditLogDto` (`create-audit-log-dto.js`).  `performedAt : Date`
is modelled by its ISO-8601 rendering. -/
structure CreateAuditLogDto where
  entityType : String
  entityId : String
  operation : String
  operationData : Option (List (String × Json)) := none
  principalId : Option String := none
  performedAt : Option String := none
  source : Option String := none
  correlationId : Option String := none
  metadata : List (String × String) := []
  headers : List (String × String) := []

def CreateAuditLogDto.create (entityType entityId operation : String) : CreateAuditLogDto :=
  { entityType, entityId, operation }

def CreateAuditLogDto.withOperationData (d : CreateAuditLogDto) (operationData : List (String × Json)) : CreateAuditLogDto :=
  { d with operationData := some operationData }

def CreateAuditLogDto.withPrincipalId (d : CreateAuditLogDto) (principalId : String) : CreateAuditLogDto :=
  { d with principalId := some principalId }

def CreateAuditLogDto.withPerformedAt (d : CreateAuditLogDto) (performedAt : String) : CreateAuditLogDto :=
  { d with performedAt := some performedAt }

def CreateAuditLogDto.withSource (d : CreateAuditLogDto) (source : String) : CreateAuditLogDto :=
  { d with source := some source }

def CreateAuditLogDto.withCorrelationId (d : CreateAuditLogDto) (correlationId : String) : CreateAuditLogDto :=
  { d with correlationId := some correlationId }

def CreateAuditLogDto.withMetadata (d : CreateAuditLogDto) (metadata : List (String × String)) : CreateAuditLogDto :=
  { d with metadata := mergeObj d.metadata metadata }

def CreateAuditLogDto.withHeaders (d : CreateAuditLogDto) (headers : List (String × String)) : CreateAuditLogDto :=
  { d with headers := mergeObj d.headers headers }

/-- `toPayload` reads the clock (`new Date()`) when `performedAt` was never
set; that reading is the `nowIso` oracle argument. -/
def CreateAuditLogDto.toPayload (d : CreateAuditLogDto) (nowIso : String) : List (String × Json) :=
  filterNulls [
    ("entityType", some (.str d.entityType)),
    ("entityId", some (.str d.entityId)),
    ("operation", some (.str d.operation)),
    ("operationData", d.operationData.map (fun od => .str (Json.stringify (.obj od)))),
    ("principalId", d.principalId.map .str),
    ("performedAt", some (.str (d.performedAt.getD nowIso))),
    ("source", d.source.map .str),
    ("correlationId", d.correlationId.map .str),
    ("metadata", if d.metadata.length > 0 then some (strMapJson d.metadata) else none)
  ]

/-! ## Outbox message model (`src/outbox/types.ts`) -/

inductive MessageType where
  | EVENT
  | DISPATCH_JOB
  | AUDIT_LOG
deriving DecidableEq

namespace OutboxStatus

def PENDING : Nat := 0

def SUCCESS : Nat := 1

def BAD_REQUEST : Nat := 2

def INTERNAL_ERROR : Nat := 3

def UNAUTHORIZED : Nat := 4

def FORBIDDEN : Nat := 5

def GATEWAY_ERROR : Nat := 6

def IN_PROGRESS : Nat := 9

end OutboxStatus

/-- The persisted outbox record handed to the driver. -/
structure OutboxMessage where
  id : String
  type : MessageType
  message_group : Option String
  payload : String
  status : Nat
  created_at : String
  updated_at : String
  client_id : String
  payload_size : Nat
  headers : Option (List (String × String))

/-- One invocation of the storage driver, recorded as data: the embedding
returns the list of driver calls a manager method performs instead of
executing effects. -/
inductive DriverCall where
  | insert (message : OutboxMessage)
  | insertBatch (messages : List OutboxMessage)

def DriverCall.sentMessages : DriverCall → List OutboxMessage
  | .insert m => [m]
  | .insertBatch ms => ms

/-- All messages handed to the driver over a list of calls. -/
def messagesOf (calls : List DriverCall) : List OutboxMessage :=
  (calls.map DriverCall.sentMessages).flatten

/-- Oracle for the nondeterministic externals a manager method consumes:
`gen i` is the result of its `i`-th call to `generate()`, `now i` the ISO
rendering of the `new Date()` taken by `buildMessage` for item `i`, and
`payloadNow i` the clock reading a `CreateAuditLogDto.toPayload` takes for
item `i`. -/
structure Env where
  gen : Nat → String
  now : Nat → String
  payloadNow : Nat → String

/-! ## OutboxManager (`dist/outbox/outbox-manager.js`) -/

structure OutboxManager where
  clientId : String

def outboxClientIdErrorMsg : String :=
  "OutboxManager: clientId is required. Provide a valid client ID when constructing the OutboxManager."

/-- `ensureClientId`: throws when `clientId` is falsy (the empty string). -/
def OutboxManager.ensureClientId (m : OutboxManager) : Except String Unit :=
  if m.clientId = "" then .error outboxClientIdErrorMsg else .ok ()

def OutboxManager.buildMessage (m : OutboxManager) (now : String) (id : String)
    (type : MessageType) (payload : String) (messageGroup : Option String)
    (headers : Option (List (String × String))) : OutboxMessage :=
  { id := id,
    type := type,
    message_group := messageGroup,
    payload := payload,
    status := OutboxStatus.PENDING,
    created_at := now,
    updated_at := now,
    client_id := m.clientId,
    payload_size := payload.utf8ByteSize,
    headers := headers }

/-- The message built for the `i`-th event of a call. -/
def OutboxManager.eventMessage (m : OutboxManager) (env : Env) (i : Nat)
    (event : CreateEventDto) : OutboxMessage :=
  m.buildMessage (env.now i) (env.gen i) .EVENT (Json.stringify (.obj event.toPayload))
    event.messageGroup
    (if event.headers.length > 0 then some event.headers else none)

def OutboxManager.createEvent (m : OutboxManager) (env : Env) (event : CreateEventDto) :
    Except String (String × List DriverCall) :=
  match m.ensureClientId with
  | .error e => .error e
  | .ok _ => .ok (env.gen 0, [.insert (m.eventMessage env 0 event)])

def OutboxManager.createEvents (m : OutboxManager) (env : Env) (events : List CreateEventDto) :
    Except String (List String × List DriverCall) :=
  if events.length = 0 then .ok ([], [])
  else
    match m.ensureClientId with
    | .error e => .error e
    | .ok _ =>
      .ok ((List.range events.length).map env.gen,
           [.insertBatch (events.enum.map (fun p => m.eventMessage env p.1 p.2))])

/-- The message built for the `i`-th dispatch job of a call.  Note the
source passes `null` for the record's headers (the DTO's headers appear
only inside the serialized payload). -/
def OutboxManager.dispatchJobMessage (m : OutboxManager) (env : Env) (i : Nat)
    (job : CreateDispatchJobDto) : OutboxMessage :=
  m.buildMessage (env.now i) (env.gen i) .DISPATCH_JOB (Json.stringify (.obj job.toPayload))
    job.messageGroup none

def OutboxManager.createDispatchJob (m : OutboxManager) (env : Env) (job : CreateDispatchJobDto) :
    Except String (String × List DriverCall) :=
  match m.ensureClientId with
  | .error e => .error e
  | .ok _ => .ok (env.gen 0, [.insert (m.dispatchJobMessage env 0 job)])

def OutboxManager.createDispatchJobs (m : OutboxManager) (env : Env)
    (jobs : List CreateDispatchJobDto) : Except String (List String × List DriverCall) :=
  if jobs.length = 0 then .ok ([], [])
  else
    match m.ensureClientId with
    | .error e => .error e
    | .ok _ =>
      .ok ((List.range jobs.length).map env.gen,
           [.insertBatch (jobs.enum.map (fun p => m.dispatchJobMessage env p.1 p.2))])

/-- The message built for the `i`-th audit log of a call.  The source passes
`null` for the record's message group. -/
def OutboxManager.auditLogMessage (m : OutboxManager) (env : Env) (i : Nat)
    (auditLog : CreateAuditLogDto) : OutboxMessage :=
  m.buildMessage (env.now i) (env.gen i) .AUDIT_LOG
    (Json.stringify (.obj (auditLog.toPayload (env.payloadNow i))))
    none
    (if auditLog.headers.length > 0 then some auditLog.headers else none)

def OutboxManager.createAuditLog (m : OutboxManager) (env : Env) (auditLog : CreateAuditLogDto) :
    Except String (String × List DriverCall) :=
  match m.ensureClientId with
  | .error e => .error e
  | .ok _ => .ok (env.gen 0, [.insert (m.auditLogMessage env 0 auditLog)])

def OutboxManager.createAuditLogs (m : OutboxManager) (env : Env)
    (auditLogs : List CreateAuditLogDto) : Except String (List String × List DriverCall) :=
  if auditLogs.length = 0 then .ok ([], [])
  else
    match m.ensureClientId with
    | .error e => .error e
    | .ok _ =>
      .ok ((List.range auditLogs.length).map env.gen,
           [.insertBatch (auditLogs.enum.map (fun p => m.auditLogMessage env p.1 p.2))])

/-! ## Lemmas about the TSID encoding -/

theorem encodeCharsAux_length (n v : Nat) : (encodeCharsAux n v).length = n := by
  induction n generalizing v with
  | zero => rfl
  | succ n ih => simp [encodeCharsAux, ih]

theorem alphabet_length : CROCKFORD_ALPHABET.data.length = 32 := by decide

theorem alphabetChar_mem (d : Nat) : alphabetChar d ∈ CROCKFORD_ALPHABET.data := by
  unfold alphabetChar
  rw [List.getD_eq_getElem?_getD]
  rcases lt_or_ge d 32 with h | h
  · have hd : d < CROCKFORD_ALPHABET.data.length := by rw [alphabet_length]; exact h
    rw [List.getElem?_eq_getElem hd]
    exact List.getElem_mem hd
  · rw [List.getElem?_eq_none (by rw [alphabet_length]; exact h)]
    decide

theorem encodeCharsAux_mem (n v : Nat) (c : Char) (hc : c ∈ encodeCharsAux n v) :
    c ∈ CROCKFORD_ALPHABET.data := by
  induction n generalizing v with
  | zero => simp [encodeCharsAux] at hc
  | succ n ih =>
    simp only [encodeCharsAux, List.mem_append, List.mem_singleton] at hc
    rcases hc with hc | hc
    · exact ih _ hc
    · rw [hc]; exact alphabetChar_mem _

theorem lexLt_cons (a b : Char) (as bs : List Char) :
    lexLt (a :: as) (b :: bs)
      = if a < b then true else if a = b then lexLt as bs else false := rfl

theorem lexLt_append_right (xs ys : List Char) (c d : Char)
    (hlen : xs.length = ys.length) (h : lexLt xs ys = true) :
    lexLt (xs ++ [c]) (ys ++ [d]) = true := by
  induction xs generalizing ys with
  | nil =>
    cases ys with
    | nil => simp [lexLt] at h
    | cons b bs => simp only [List.length_nil, List.length_cons] at hlen; omega
  | cons a as ih =>
    cases ys with
    | nil => simp only [List.length_nil, List.length_cons] at hlen; omega
    | cons b bs =>
      rw [List.cons_append, List.cons_append, lexLt_cons]
      rw [lexLt_cons] at h
      by_cases h1 : a < b
      · rw [if_pos h1]
      · rw [if_neg h1] at h ⊢
        by_cases h2 : a = b
        · rw [if_pos h2] at h ⊢
          exact ih bs (by simpa using hlen) h
        · rw [if_neg h2] at h
          exact absurd h (by simp)

theorem lexLt_append_last (xs : List Char) (c d : Char) (h : c < d) :
    lexLt (xs ++ [c]) (xs ++ [d]) = true := by
  induction xs with
  | nil => simp [lexLt, h]
  | cons a as ih =>
    rw [List.cons_append, List.cons_append, lexLt_cons]
    by_cases h1 : a < a
    · rw [if_pos h1]
    · rw [if_neg h1, if_pos rfl]
      exact ih

theorem encodeCharsAux_succ (n v : Nat) :
    encodeCharsAux (n + 1) v = encodeCharsAux n (v / 32) ++ [alphabetChar (v % 32)] := by
  have h1 : v >>> 5 = v / 32 := by
    rw [Nat.shiftRight_eq_div_pow]
  have h2 : v &&& 31 = v % 32 := by
    have h := Nat.and_pow_two_sub_one_eq_mod v 5
    norm_num at h
    exact h
  rw [encodeCharsAux, h1, h2]

theorem alphabetChar_mono : ∀ d2 < 32, ∀ d1 < d2, alphabetChar d1 < alphabetChar d2 := by
  decide

theorem encodeCharsAux_lt (n : Nat) : ∀ a b : Nat, a < b → b < 32 ^ n →
    lexLt (encodeCharsAux n a) (encodeCharsAux n b) = true := by
  induction n with
  | zero =>
    intro a b hab hb
    simp only [pow_zero] at hb
    omega
  | succ n ih =>
    intro a b hab hb
    rw [encodeCharsAux_succ, encodeCharsAux_succ]
    have hdiv : a / 32 ≤ b / 32 := Nat.div_le_div_right (le_of_lt hab)
    rcases lt_or_eq_of_le hdiv with hlt | heq
    · refine lexLt_append_right _ _ _ _ (by rw [encodeCharsAux_length, encodeCharsAux_length]) ?_
      refine ih _ _ hlt ?_
      rw [Nat.div_lt_iff_lt_mul (by norm_num)]
      calc b < 32 ^ (n + 1) := hb
        _ = 32 ^ n * 32 := by ring
    · rw [heq]
      have hmod : a % 32 < b % 32 := by
        have ha32 := Nat.div_add_mod a 32
        have hb32 := Nat.div_add_mod b 32
        omega
      exact lexLt_append_last _ _ _
        (alphabetChar_mono (b % 32) (Nat.mod_lt _ (by norm_num)) (a % 32) hmod)

theorem encodeCrockford_lt (a b : Nat) (hab : a < b) (hb : b < 32 ^ 13) :
    strLt (encodeCrockford a) (encodeCrockford b) = true :=
  encodeCharsAux_lt 13 a b hab hb

theorem shiftLeft_or_eq (e r : Nat) (hr : r < 2 ^ 22) :
    (e <<< RANDOM_BITS) ||| r = 2 ^ 22 * e + r := by
  simp only [RANDOM_BITS]
  rw [Nat.shiftLeft_eq, Nat.mul_comm]
  exact (Nat.mul_add_lt_is_or hr e).symm

/-- C4: identifiers generated at clock times at least 1 ms apart, both at or
after the custom epoch and within the 42-bit timestamp range, compare in
generation order under lexicographic (JS `<`) string comparison, for any
values of the 22-bit random component. -/
theorem tsid_time_ordered (t1 t2 r1 r2 : Nat)
    (he : CUSTOM_EPOCH ≤ t1) (ht : t1 + 1 ≤ t2) (hrange : t2 - CUSTOM_EPOCH < 2 ^ 42)
    (hr1 : r1 < 2 ^ 22) (hr2 : r2 < 2 ^ 22) :
    strLt (generate t1 r1) (generate t2 r2) = true := by
  unfold generate
  rw [shiftLeft_or_eq _ _ hr1, shiftLeft_or_eq _ _ hr2]
  have hee : (t1 - CUSTOM_EPOCH) + 1 ≤ t2 - CUSTOM_EPOCH := by omega
  apply encodeCrockford_lt
  · have h1 : 2 ^ 22 * (t1 - CUSTOM_EPOCH) + r1 < 2 ^ 22 * ((t1 - CUSTOM_EPOCH) + 1) := by
      rw [Nat.mul_add]; omega
    have h2 : 2 ^ 22 * ((t1 - CUSTOM_EPOCH) + 1) ≤ 2 ^ 22 * (t2 - CUSTOM_EPOCH) :=
      Nat.mul_le_mul_left _ hee
    omega
  · have h3 : 2 ^ 22 * (t2 - CUSTOM_EPOCH) + r2 < 2 ^ 22 * (2 ^ 42) := by
      have h4 : 2 ^ 22 * ((t2 - CUSTOM_EPOCH) + 1) ≤ 2 ^ 22 * 2 ^ 42 :=
        Nat.mul_le_mul_left _ hrange
      rw [Nat.mul_add] at h4
      omega
    calc 2 ^ 22 * (t2 - CUSTOM_EPOCH) + r2 < 2 ^ 22 * 2 ^ 42 := h3
      _ ≤ 32 ^ 13 := by norm_num

/-- Witness for C4 at concrete clock readings one second apart. -/
theorem tsid_time_ordered_witness :
    CUSTOM_EPOCH ≤ 1577836801000 ∧ 1577836801000 + 1 ≤ 1577836802000
    ∧ 1577836802000 - CUSTOM_EPOCH < 2 ^ 42
    ∧ 4194303 < 2 ^ 22 ∧ 0 < 2 ^ 22
    ∧ strLt (generate 1577836801000 4194303) (generate 1577836802000 0) = true :=
  ⟨by decide, by decide, by decide, by decide, by decide,
    tsid_time_ordered 1577836801000 1577836802000 4194303 0
      (by decide) (by decide) (by decide) (by decide) (by decide)⟩

theorem toUpper_fixes_alphabet :
    ∀ c ∈ CROCKFORD_ALPHABET.data, c.toUpper = c := by decide

theorem generate_length (nowMs random : Nat) : (generate nowMs random).length = 13 := by
  unfold generate encodeCrockford
  show (encodeCharsAux TSID_LENGTH _).length = 13
  rw [encodeCharsAux_length]
  rfl

theorem generate_chars (nowMs random : Nat) :
    ((generate nowMs random).data.all (fun c => CROCKFORD_ALPHABET.data.contains c)) = true := by
  rw [List.all_eq_true]
  intro c hc
  have hmem : c ∈ encodeCharsAux TSID_LENGTH (((nowMs - CUSTOM_EPOCH) <<< RANDOM_BITS) ||| random) := hc
  simpa using encodeCharsAux_mem _ _ _ hmem

/-- C5: every generated identifier is 13 characters over the 32-symbol
alphabet and passes `isValid`; and for every string, `isValid` holds exactly
of the strings of length 13 all of whose characters belong to the alphabet
after the host uppercase mapping (a pure format check).  The JS
`toUpperCase` primitive is the oracle `up`; the iff half holds for every
`up`, and the generated-identifier half uses only the fact that
`toUpperCase` fixes strings made of the alphabet's symbols (digits and
uppercase letters are fixed points of the Unicode uppercase mapping). -/
theorem tsid_format (up : String → String)
    (hup : ∀ s : String, (∀ c ∈ s.data, c ∈ CROCKFORD_ALPHABET.data) → up s = s) :
    (∀ nowMs random : Nat,
        (generate nowMs random).length = 13
        ∧ ((generate nowMs random).data.all (fun c => CROCKFORD_ALPHABET.data.contains c)) = true
        ∧ isValid up (generate nowMs random) = true)
    ∧ (∀ s : String, isValid up s = true
        ↔ s.length = 13
          ∧ ((up s).data.all (fun c => CROCKFORD_ALPHABET.data.contains c)) = true) := by
  have hvalid : ∀ s : String, isValid up s = true
      ↔ s.length = 13
        ∧ ((up s).data.all (fun c => CROCKFORD_ALPHABET.data.contains c)) = true := by
    intro s
    unfold isValid
    by_cases hl : s.length = TSID_LENGTH
    · rw [if_neg (by simpa using hl)]
      constructor
      · intro h; exact ⟨hl, h⟩
      · intro h; exact h.2
    · rw [if_pos (by simpa using hl)]
      constructor
      · intro h; exact absurd h (by simp)
      · intro h; exact absurd h.1 (by simpa [TSID_LENGTH] using hl)
  refine ⟨fun nowMs random => ⟨generate_length nowMs random, generate_chars nowMs random, ?_⟩, hvalid⟩
  rw [hvalid]
  refine ⟨generate_length nowMs random, ?_⟩
  have hfix : up (generate nowMs random) = generate nowMs random := by
    refine hup _ ?_
    intro c hc
    have h := generate_chars nowMs random
    rw [List.all_eq_true] at h
    simpa using h c hc
  rw [hfix]
  exact generate_chars nowMs random

/-- ASCII uppercase on each character, a concrete instance of the uppercase
oracle that agrees with JS `toUpperCase` on strings of alphabet symbols. -/
def asciiUpper (s : String) : String := String.mk (s.data.map Char.toUpper)

theorem map_toUpper_fixes_alphabet (l : List Char)
    (h : ∀ c ∈ l, c ∈ CROCKFORD_ALPHABET.data) : l.map Char.toUpper = l := by
  induction l with
  | nil => rfl
  | cons c cs ih =>
    rw [List.map_cons, toUpper_fixes_alphabet c (h c (List.mem_cons_self c cs)),
      ih (fun x hx => h x (List.mem_cons_of_mem _ hx))]

theorem asciiUpper_fixes_alphabet (s : String)
    (h : ∀ c ∈ s.data, c ∈ CROCKFORD_ALPHABET.data) : asciiUpper s = s := by
  unfold asciiUpper
  rw [map_toUpper_fixes_alphabet s.data h]

/-- Witness for C5: the ASCII uppercase map satisfies the oracle hypothesis,
and the theorem applies at a concrete clock reading, random value and
string. -/
theorem tsid_format_witness :
    isValid asciiUpper (generate 1700000000000 12345) = true
    ∧ (isValid asciiUpper "0000003x00000" = true
        ↔ "0000003x00000".length = 13
          ∧ ((asciiUpper "0000003x00000").data.all
              (fun c => CROCKFORD_ALPHABET.data.contains c)) = true) :=
  ⟨((tsid_format asciiUpper asciiUpper_fixes_alphabet).1 1700000000000 12345).2.2,
   (tsid_format asciiUpper asciiUpper_fixes_alphabet).2 "0000003x00000"⟩

/-! ## Lemmas about filterNulls and object merge -/

theorem mem_filterNulls (l : List (String × Option Json)) (k : String) (v : Json) :
    (k, v) ∈ filterNulls l ↔ (k, some v) ∈ l := by
  induction l with
  | nil => simp [filterNulls]
  | cons kv l ih =>
    obtain ⟨k', ov⟩ := kv
    cases ov with
    | none =>
      simp only [filterNulls, List.filterMap_cons] at ih ⊢
      simp only [Option.map_none']
      rw [ih]
      simp
    | some w =>
      simp only [filterNulls, List.filterMap_cons] at ih ⊢
      simp only [Option.map_some']
      simp only [List.mem_cons, ih]
      constructor
      · rintro (h | h)
        · injection h with h1 h2; subst h1; subst h2; left; rfl
        · right; exact h
      · rintro (h | h)
        · injection h with h1 h2
          subst h1
          have h3 : v = w := by injection h2
          subst h3
          left; rfl
        · right; exact h

theorem fst_mem_of_mem_filterNulls (l : List (String × Option Json)) (p : String × Json)
    (hp : p ∈ filterNulls l) : p.1 ∈ l.map Prod.fst := by
  obtain ⟨k, v⟩ := p
  rw [mem_filterNulls] at hp
  exact List.mem_map_of_mem Prod.fst hp

theorem lookup_filterNulls (l : List (String × Option Json)) (k : String)
    (hnd : (l.map Prod.fst).Nodup) :
    (filterNulls l).lookup k = (l.lookup k).join := by
  induction l with
  | nil => simp [filterNulls]
  | cons kv l ih =>
    obtain ⟨k', ov⟩ := kv
    simp only [List.map_cons, List.nodup_cons] at hnd
    obtain ⟨hk', hnd'⟩ := hnd
    cases ov with
    | none =>
      show (filterNulls l).lookup k = (((k', none) :: l).lookup k).join
      rw [List.lookup_cons]
      cases h : (k == k') with
      | true =>
        have hkk : k = k' := by simpa using h
        subst hkk
        show List.lookup k (filterNulls l) = none
        rw [List.lookup_eq_none_iff]
        intro p hp
        have := fst_mem_of_mem_filterNulls l p hp
        by_contra hne
        simp only [bne_iff_ne, ne_eq, not_not] at hne
        exact hk' (hne ▸ this)
      | false => exact ih hnd'
    | some w =>
      show ((k', w) :: filterNulls l).lookup k = (((k', some w) :: l).lookup k).join
      rw [List.lookup_cons, List.lookup_cons]
      cases h : (k == k') with
      | true => simp
      | false => exact ih hnd'

theorem lookup_map_override (old new : List (String × String)) (k : String) :
    (old.map (fun kv => (kv.1, ((new.lookup kv.1).getD kv.2)))).lookup k
      = (old.lookup k).map (fun v => (new.lookup k).getD v) := by
  induction old with
  | nil => simp
  | cons kv old ih =>
    obtain ⟨k', v'⟩ := kv
    simp only [List.map_cons]
    rw [List.lookup_cons, List.lookup_cons]
    cases h : (k == k') with
    | true =>
      have hkk : k = k' := by simpa using h
      subst hkk
      rfl
    | false => exact ih

theorem lookup_filter_false (l : List (String × String)) (p : String × String → Bool)
    (k : String) (hp : ∀ kv ∈ l, kv.1 = k → p kv = false) :
    (l.filter p).lookup k = none := by
  induction l with
  | nil => simp
  | cons kv l ih =>
    rw [List.filter_cons]
    by_cases hk : kv.1 = k
    · rw [hp kv (List.mem_cons_self kv l) hk]
      simp only [Bool.false_eq_true, if_false]
      exact ih (fun kv h hk => hp kv (List.mem_cons_of_mem _ h) hk)
    · cases hpk : p kv with
      | true =>
        simp only [if_true]
        rw [List.lookup_cons]
        have : (k == kv.1) = false := by simpa using fun h => hk h.symm
        rw [this]
        exact ih (fun kv h hk => hp kv (List.mem_cons_of_mem _ h) hk)
      | false =>
        simp only [Bool.false_eq_true, if_false]
        exact ih (fun kv h hk => hp kv (List.mem_cons_of_mem _ h) hk)

theorem lookup_filter_true (l : List (String × String)) (p : String × String → Bool)
    (k : String) (hp : ∀ kv ∈ l, kv.1 = k → p kv = true) :
    (l.filter p).lookup k = l.lookup k := by
  induction l with
  | nil => simp
  | cons kv l ih =>
    rw [List.filter_cons]
    by_cases hk : kv.1 = k
    · rw [hp kv (List.mem_cons_self kv l) hk]
      simp only [if_true]
      rw [List.lookup_cons, List.lookup_cons]
      cases h : (k == kv.1) with
      | true => rfl
      | false => exact ih (fun kv h hk => hp kv (List.mem_cons_of_mem _ h) hk)
    · have hne : (k == kv.1) = false := by simpa using fun h => hk h.symm
      cases hpk : p kv with
      | true =>
        simp only [if_true]
        rw [List.lookup_cons, hne, List.lookup_cons, hne]
        exact ih (fun kv h hk => hp kv (List.mem_cons_of_mem _ h) hk)
      | false =>
        simp only [Bool.false_eq_true, if_false]
        rw [List.lookup_cons, hne]
        exact ih (fun kv h hk => hp kv (List.mem_cons_of_mem _ h) hk)

/-- JS spread-merge gives lookup priority to the new map and falls back to
the old map: new keys win on conflict, old keys are retained. -/
theorem mergeObj_lookup (old new : List (String × String)) (k : String) :
    (mergeObj old new).lookup k = ((new.lookup k).or (old.lookup k)) := by
  unfold mergeObj
  rw [List.lookup_append, lookup_map_override]
  cases hold : old.lookup k with
  | none =>
    simp only [Option.map_none', Option.none_or]
    rw [lookup_filter_true]
    · cases hnew : new.lookup k <;> simp
    · intro kv _ hk
      rw [hk, hold]
      rfl
  | some v =>
    simp only [Option.map_some']
    rw [lookup_filter_false]
    · cases hnew : new.lookup k <;> simp [hnew]
    · intro kv _ hk
      rw [hk, hold]
      rfl

/-! ## Lemmas about the OutboxManager operations -/

theorem createEvent_ok_iff (m : OutboxManager) (env : Env) (ev : CreateEventDto)
    (out : String × List DriverCall) :
    m.createEvent env ev = .ok out
      ↔ m.clientId ≠ "" ∧ out = (env.gen 0, [.insert (m.eventMessage env 0 ev)]) := by
  unfold OutboxManager.createEvent OutboxManager.ensureClientId
  by_cases hc : m.clientId = ""
  · rw [if_pos hc]
    simp [hc]
  · rw [if_neg hc]
    simp [hc, eq_comm]

theorem createDispatchJob_ok_iff (m : OutboxManager) (env : Env) (job : CreateDispatchJobDto)
    (out : String × List DriverCall) :
    m.createDispatchJob env job = .ok out
      ↔ m.clientId ≠ "" ∧ out = (env.gen 0, [.insert (m.dispatchJobMessage env 0 job)]) := by
  unfold OutboxManager.createDispatchJob OutboxManager.ensureClientId
  by_cases hc : m.clientId = ""
  · rw [if_pos hc]
    simp [hc]
  · rw [if_neg hc]
    simp [hc, eq_comm]

theorem createAuditLog_ok_iff (m : OutboxManager) (env : Env) (auditLog : CreateAuditLogDto)
    (out : String × List DriverCall) :
    m.createAuditLog env auditLog = .ok out
      ↔ m.clientId ≠ "" ∧ out = (env.gen 0, [.insert (m.auditLogMessage env 0 auditLog)]) := by
  unfold OutboxManager.createAuditLog OutboxManager.ensureClientId
  by_cases hc : m.clientId = ""
  · rw [if_pos hc]
    simp [hc]
  · rw [if_neg hc]
    simp [hc, eq_comm]

theorem createEvents_nil (m : OutboxManager) (env : Env) :
    m.createEvents env [] = .ok ([], []) := rfl

theorem createDispatchJobs_nil (m : OutboxManager) (env : Env) :
    m.createDispatchJobs env [] = .ok ([], []) := rfl

theorem createAuditLogs_nil (m : OutboxManager) (env : Env) :
    m.createAuditLogs env [] = .ok ([], []) := rfl

theorem createEvents_ok_iff (m : OutboxManager) (env : Env) (evs : List CreateEventDto)
    (hne : evs ≠ []) (out : List String × List DriverCall) :
    m.createEvents env evs = .ok out
      ↔ m.clientId ≠ "" ∧ out = ((List.range evs.length).map env.gen,
          [.insertBatch (evs.enum.map (fun p => m.eventMessage env p.1 p.2))]) := by
  unfold OutboxManager.createEvents OutboxManager.ensureClientId
  rw [if_neg (by simpa [List.length_eq_zero] using hne)]
  by_cases hc : m.clientId = ""
  · rw [if_pos hc]
    simp [hc]
  · rw [if_neg hc]
    simp [hc, eq_comm]

theorem createDispatchJobs_ok_iff (m : OutboxManager) (env : Env)
    (jobs : List CreateDispatchJobDto) (hne : jobs ≠ []) (out : List String × List DriverCall) :
    m.createDispatchJobs env jobs = .ok out
      ↔ m.clientId ≠ "" ∧ out = ((List.range jobs.length).map env.gen,
          [.insertBatch (jobs.enum.map (fun p => m.dispatchJobMessage env p.1 p.2))]) := by
  unfold OutboxManager.createDispatchJobs OutboxManager.ensureClientId
  rw [if_neg (by simpa [List.length_eq_zero] using hne)]
  by_cases hc : m.clientId = ""
  · rw [if_pos hc]
    simp [hc]
  · rw [if_neg hc]
    simp [hc, eq_comm]

theorem createAuditLogs_ok_iff (m : OutboxManager) (env : Env)
    (auditLogs : List CreateAuditLogDto) (hne : auditLogs ≠ []) (out : List String × List DriverCall) :
    m.createAuditLogs env auditLogs = .ok out
      ↔ m.clientId ≠ "" ∧ out = ((List.range auditLogs.length).map env.gen,
          [.insertBatch (auditLogs.enum.map (fun p => m.auditLogMessage env p.1 p.2))]) := by
  unfold OutboxManager.createAuditLogs OutboxManager.ensureClientId
  rw [if_neg (by simpa [List.length_eq_zero] using hne)]
  by_cases hc : m.clientId = ""
  · rw [if_pos hc]
    simp [hc]
  · rw [if_neg hc]
    simp [hc, eq_comm]

theorem createEvent_err (m : OutboxManager) (env : Env) (ev : CreateEventDto)
    (hc : m.clientId = "") : m.createEvent env ev = .error outboxClientIdErrorMsg := by
  unfold OutboxManager.createEvent OutboxManager.ensureClientId
  rw [if_pos hc]

theorem createDispatchJob_err (m : OutboxManager) (env : Env) (job : CreateDispatchJobDto)
    (hc : m.clientId = "") : m.createDispatchJob env job = .error outboxClientIdErrorMsg := by
  unfold OutboxManager.createDispatchJob OutboxManager.ensureClientId
  rw [if_pos hc]

theorem createAuditLog_err (m : OutboxManager) (env : Env) (auditLog : CreateAuditLogDto)
    (hc : m.clientId = "") : m.createAuditLog env auditLog = .error outboxClientIdErrorMsg := by
  unfold OutboxManager.createAuditLog OutboxManager.ensureClientId
  rw [if_pos hc]

theorem createEvents_err (m : OutboxManager) (env : Env) (evs : List CreateEventDto)
    (hne : evs ≠ []) (hc : m.clientId = "") :
    m.createEvents env evs = .error outboxClientIdErrorMsg := by
  unfold OutboxManager.createEvents OutboxManager.ensureClientId
  rw [if_neg (by simpa [List.length_eq_zero] using hne), if_pos hc]

theorem createDispatchJobs_err (m : OutboxManager) (env : Env) (jobs : List CreateDispatchJobDto)
    (hne : jobs ≠ []) (hc : m.clientId = "") :
    m.createDispatchJobs env jobs = .error outboxClientIdErrorMsg := by
  unfold OutboxManager.createDispatchJobs OutboxManager.ensureClientId
  rw [if_neg (by simpa [List.length_eq_zero] using hne), if_pos hc]

theorem createAuditLogs_err (m : OutboxManager) (env : Env) (auditLogs : List CreateAuditLogDto)
    (hne : auditLogs ≠ []) (hc : m.clientId = "") :
    m.createAuditLogs env auditLogs = .error outboxClientIdErrorMsg := by
  unfold OutboxManager.createAuditLogs OutboxManager.ensureClientId
  rw [if_neg (by simpa [List.length_eq_zero] using hne), if_pos hc]

/-- The record invariants C1 asserts of every message handed to the driver. -/
def pendingRecordOk (m : OutboxManager) (msg : OutboxMessage) : Prop :=
  msg.status = OutboxStatus.PENDING ∧ msg.created_at = msg.updated_at
    ∧ msg.client_id = m.clientId ∧ msg.payload_size = msg.payload.utf8ByteSize

theorem buildMessage_pendingOk (m : OutboxManager) (now id : String) (type : MessageType)
    (payload : String) (mg : Option String) (hd : Option (List (String × String))) :
    pendingRecordOk m (m.buildMessage now id type payload mg hd) :=
  ⟨rfl, rfl, rfl, rfl⟩

theorem eventMessage_pendingOk (m : OutboxManager) (env : Env) (i : Nat) (ev : CreateEventDto) :
    pendingRecordOk m (m.eventMessage env i ev) :=
  buildMessage_pendingOk m _ _ _ _ _ _

theorem dispatchJobMessage_pendingOk (m : OutboxManager) (env : Env) (i : Nat)
    (job : CreateDispatchJobDto) : pendingRecordOk m (m.dispatchJobMessage env i job) :=
  buildMessage_pendingOk m _ _ _ _ _ _

theorem auditLogMessage_pendingOk (m : OutboxManager) (env : Env) (i : Nat)
    (auditLog : CreateAuditLogDto) : pendingRecordOk m (m.auditLogMessage env i auditLog) :=
  buildMessage_pendingOk m _ _ _ _ _ _

/-- C1: every message a successful create call (single or batch, any of the
three message types) hands to the driver has status PENDING = 0, equal
created/updated timestamps, the manager's client id, and payload_size equal
to the UTF-8 byte length of the serialized payload string. -/
theorem outbox_pending_record (m : OutboxManager) (env : Env) :
    OutboxStatus.PENDING = 0
    ∧ (∀ ev out, m.createEvent env ev = .ok out →
        ∀ msg ∈ messagesOf out.2, pendingRecordOk m msg)
    ∧ (∀ evs out, m.createEvents env evs = .ok out →
        ∀ msg ∈ messagesOf out.2, pendingRecordOk m msg)
    ∧ (∀ job out, m.createDispatchJob env job = .ok out →
        ∀ msg ∈ messagesOf out.2, pendingRecordOk m msg)
    ∧ (∀ jobs out, m.createDispatchJobs env jobs = .ok out →
        ∀ msg ∈ messagesOf out.2, pendingRecordOk m msg)
    ∧ (∀ auditLog out, m.createAuditLog env auditLog = .ok out →
        ∀ msg ∈ messagesOf out.2, pendingRecordOk m msg)
    ∧ (∀ auditLogs out, m.createAuditLogs env auditLogs = .ok out →
        ∀ msg ∈ messagesOf out.2, pendingRecordOk m msg) := by
  refine ⟨rfl, ?_, ?_, ?_, ?_, ?_, ?_⟩
  · intro ev out h msg hmsg
    obtain ⟨-, rfl⟩ := (createEvent_ok_iff m env ev out).mp h
    simp only [messagesOf, List.map_cons, List.map_nil, DriverCall.sentMessages,
      List.flatten, List.append_nil, List.mem_singleton] at hmsg
    subst hmsg
    exact eventMessage_pendingOk m env 0 ev
  · intro evs out h msg hmsg
    cases evs with
    | nil =>
      rw [createEvents_nil] at h
      cases h
      simp [messagesOf] at hmsg
    | cons e es =>
      obtain ⟨-, rfl⟩ := (createEvents_ok_iff m env (e :: es) (by simp) out).mp h
      simp only [messagesOf, List.map_cons, List.map_nil, DriverCall.sentMessages,
        List.flatten, List.append_nil, List.mem_map] at hmsg
      obtain ⟨p, -, rfl⟩ := hmsg
      exact eventMessage_pendingOk m env p.1 p.2
  · intro job out h msg hmsg
    obtain ⟨-, rfl⟩ := (createDispatchJob_ok_iff m env job out).mp h
    simp only [messagesOf, List.map_cons, List.map_nil, DriverCall.sentMessages,
      List.flatten, List.append_nil, List.mem_singleton] at hmsg
    subst hmsg
    exact dispatchJobMessage_pendingOk m env 0 job
  · intro jobs out h msg hmsg
    cases jobs with
    | nil =>
      rw [createDispatchJobs_nil] at h
      cases h
      simp [messagesOf] at hmsg
    | cons j js =>
      obtain ⟨-, rfl⟩ := (createDispatchJobs_ok_iff m env (j :: js) (by simp) out).mp h
      simp only [messagesOf, List.map_cons, List.map_nil, DriverCall.sentMessages,
        List.flatten, List.append_nil, List.mem_map] at hmsg
      obtain ⟨p, -, rfl⟩ := hmsg
      exact dispatchJobMessage_pendingOk m env p.1 p.2
  · intro auditLog out h msg hmsg
    obtain ⟨-, rfl⟩ := (createAuditLog_ok_iff m env auditLog out).mp h
    simp only [messagesOf, List.map_cons, List.map_nil, DriverCall.sentMessages,
      List.flatten, List.append_nil, List.mem_singleton] at hmsg
    subst hmsg
    exact auditLogMessage_pendingOk m env 0 auditLog
  · intro auditLogs out h msg hmsg
    cases auditLogs with
    | nil =>
      rw [createAuditLogs_nil] at h
      cases h
      simp [messagesOf] at hmsg
    | cons a as =>
      obtain ⟨-, rfl⟩ := (createAuditLogs_ok_iff m env (a :: as) (by simp) out).mp h
      simp only [messagesOf, List.map_cons, List.map_nil, DriverCall.sentMessages,
        List.flatten, List.append_nil, List.mem_map] at hmsg
      obtain ⟨p, -, rfl⟩ := hmsg
      exact auditLogMessage_pendingOk m env p.1 p.2

/-! ## Concrete fixtures for witnesses and counterexamples -/

def env0 : Env :=
  { gen := fun i => encodeCrockford i,
    now := fun _ => "2024-01-01T00:00:00.000Z",
    payloadNow := fun _ => "2024-01-01T00:00:00.000Z" }

def mgr1 : OutboxManager := { clientId := "client-1" }

def mgr0 : OutboxManager := { clientId := "" }

def ev0 : CreateEventDto := CreateEventDto.create "user.registered" [("userId", .str "123")]

/-- Witness for C1 at a concrete manager, oracle and event. -/
theorem outbox_pending_record_witness :
    OutboxManager.createEvent mgr1 env0 ev0
        = .ok (env0.gen 0, [.insert (OutboxManager.eventMessage mgr1 env0 0 ev0)])
    ∧ pendingRecordOk mgr1 (OutboxManager.eventMessage mgr1 env0 0 ev0) :=
  ⟨rfl, (outbox_pending_record mgr1 env0).2.1 ev0 _ rfl
      (OutboxManager.eventMessage mgr1 env0 0 ev0)
      (by simp [messagesOf, DriverCall.sentMessages])⟩

/-- C2 counterexample: a manager with an empty client id, given the empty
batch, resolves successfully to the empty list — the batch methods check
for the empty input before validating the client id, so not every input
raises the configuration error. -/
theorem empty_batch_bypasses_client_check :
    OutboxManager.createEvents mgr0 env0 [] = .ok ([], []) := rfl

/-- C2 amended: with an empty client id, every single-item create call and
every batch call on a non-empty list fails with the configuration error and
performs no driver call; a batch call on the empty list instead resolves to
the empty list, also with no driver call. -/
theorem client_id_validation (m : OutboxManager) (env : Env) (hc : m.clientId = "") :
    (∀ ev, m.createEvent env ev = .error outboxClientIdErrorMsg)
    ∧ (∀ job, m.createDispatchJob env job = .error outboxClientIdErrorMsg)
    ∧ (∀ auditLog, m.createAuditLog env auditLog = .error outboxClientIdErrorMsg)
    ∧ (∀ evs, evs ≠ [] → m.createEvents env evs = .error outboxClientIdErrorMsg)
    ∧ (∀ jobs, jobs ≠ [] → m.createDispatchJobs env jobs = .error outboxClientIdErrorMsg)
    ∧ (∀ als, als ≠ [] → m.createAuditLogs env als = .error outboxClientIdErrorMsg)
    ∧ m.createEvents env [] = .ok ([], [])
    ∧ m.createDispatchJobs env [] = .ok ([], [])
    ∧ m.createAuditLogs env [] = .ok ([], []) :=
  ⟨fun ev => createEvent_err m env ev hc,
   fun job => createDispatchJob_err m env job hc,
   fun auditLog => createAuditLog_err m env auditLog hc,
   fun evs hne => createEvents_err m env evs hne hc,
   fun jobs hne => createDispatchJobs_err m env jobs hne hc,
   fun als hne => createAuditLogs_err m env als hne hc,
   createEvents_nil m env, createDispatchJobs_nil m env, createAuditLogs_nil m env⟩

/-- Witness for the amended C2 at a concrete empty-client-id manager. -/
theorem client_id_validation_witness :
    mgr0.clientId = ""
    ∧ OutboxManager.createEvent mgr0 env0 ev0 = .error outboxClientIdErrorMsg
    ∧ OutboxManager.createEvents mgr0 env0 [ev0] = .error outboxClientIdErrorMsg :=
  ⟨rfl, (client_id_validation mgr0 env0 rfl).1 ev0,
    (client_id_validation mgr0 env0 rfl).2.2.2.1 [ev0] (by simp)⟩

def job0 : CreateDispatchJobDto :=
  CreateDispatchJobDto.create "order-service" "order.process"
    "https://api.example.com/webhook" (.str "\x7b\"orderId\":\"123\"\x7d") "pool-1"

def jobWithHeaders : CreateDispatchJobDto := job0.withHeaders [("a", "1")]

theorem batch_ids_eq {α : Type} (env : Env) (l : List α) (f : Nat × α → OutboxMessage)
    (hid : ∀ p, (f p).id = env.gen p.1) :
    (l.enum.map f).map OutboxMessage.id = (List.range l.length).map env.gen := by
  rw [List.map_map]
  have h1 : (OutboxMessage.id ∘ f) = (fun p : Nat × α => env.gen p.1) := funext hid
  rw [h1]
  have h2 : (fun p : Nat × α => env.gen p.1) = (env.gen ∘ Prod.fst) := rfl
  rw [h2, ← List.map_map, List.enum_eq_enumFrom, List.enumFrom_map_fst, ← List.range_eq_range']

theorem batch_msgs_getElem {α : Type} (l : List α) (f : Nat × α → OutboxMessage) (i : Nat) :
    (l.enum.map f)[i]? = (l[i]?).map (fun a => f (i, a)) := by
  rw [List.getElem?_map, List.enum_eq_enumFrom, List.getElem?_enumFrom]
  cases l[i]? <;> simp

/-- C3 counterexample: for a dispatch job whose DTO carries a non-empty
headers map, the record handed to the driver has headers = null — the
manager passes `null` for the record headers of dispatch jobs (the DTO's
headers travel only inside the serialized payload). -/
theorem dispatch_record_headers_cex :
    jobWithHeaders.headers = [("a", "1")]
    ∧ OutboxManager.createDispatchJob mgr1 env0 jobWithHeaders
        = .ok (env0.gen 0, [.insert (OutboxManager.dispatchJobMessage mgr1 env0 0 jobWithHeaders)])
    ∧ (OutboxManager.dispatchJobMessage mgr1 env0 0 jobWithHeaders).headers = none :=
  ⟨rfl, rfl, rfl⟩

/-- C3 amended: for event and audit-log creates (single and batch) the
record's headers equal the DTO's headers map when non-empty and null
otherwise; for dispatch-job creates the record's headers are always null,
the DTO's headers appearing only inside the serialized payload. -/
theorem record_headers_rule (m : OutboxManager) (env : Env) :
    (∀ ev out, m.createEvent env ev = .ok out → ∀ msg ∈ messagesOf out.2,
        msg.headers = if ev.headers.length > 0 then some ev.headers else none)
    ∧ (∀ auditLog out, m.createAuditLog env auditLog = .ok out → ∀ msg ∈ messagesOf out.2,
        msg.headers = if auditLog.headers.length > 0 then some auditLog.headers else none)
    ∧ (∀ evs msgs out, m.createEvents env evs = .ok out →
        out.2 = [DriverCall.insertBatch msgs] → ∀ i, i < evs.length →
        (msgs[i]?).map OutboxMessage.headers
          = (evs[i]?).map (fun ev => if ev.headers.length > 0 then some ev.headers else none))
    ∧ (∀ als msgs out, m.createAuditLogs env als = .ok out →
        out.2 = [DriverCall.insertBatch msgs] → ∀ i, i < als.length →
        (msgs[i]?).map OutboxMessage.headers
          = (als[i]?).map (fun al => if al.headers.length > 0 then some al.headers else none))
    ∧ (∀ job out, m.createDispatchJob env job = .ok out → ∀ msg ∈ messagesOf out.2,
        msg.headers = none)
    ∧ (∀ jobs out, m.createDispatchJobs env jobs = .ok out → ∀ msg ∈ messagesOf out.2,
        msg.headers = none) := by
  refine ⟨?_, ?_, ?_, ?_, ?_, ?_⟩
  · intro ev out h msg hmsg
    obtain ⟨-, rfl⟩ := (createEvent_ok_iff m env ev out).mp h
    simp only [messagesOf, List.map_cons, List.map_nil, DriverCall.sentMessages,
      List.flatten, List.append_nil, List.mem_singleton] at hmsg
    subst hmsg
    rfl
  · intro auditLog out h msg hmsg
    obtain ⟨-, rfl⟩ := (createAuditLog_ok_iff m env auditLog out).mp h
    simp only [messagesOf, List.map_cons, List.map_nil, DriverCall.sentMessages,
      List.flatten, List.append_nil, List.mem_singleton] at hmsg
    subst hmsg
    rfl
  · intro evs msgs out h hout i hi
    cases evs with
    | nil => simp at hi
    | cons e es =>
      obtain ⟨-, rfl⟩ := (createEvents_ok_iff m env (e :: es) (by simp) out).mp h
      injection hout with h1 h2
      injection h1 with h3
      subst h3
      rw [batch_msgs_getElem, Option.map_map]
      rfl
  · intro als msgs out h hout i hi
    cases als with
    | nil => simp at hi
    | cons a as =>
      obtain ⟨-, rfl⟩ := (createAuditLogs_ok_iff m env (a :: as) (by simp) out).mp h
      injection hout with h1 h2
      injection h1 with h3
      subst h3
      rw [batch_msgs_getElem, Option.map_map]
      rfl
  · intro job out h msg hmsg
    obtain ⟨-, rfl⟩ := (createDispatchJob_ok_iff m env job out).mp h
    simp only [messagesOf, List.map_cons, List.map_nil, DriverCall.sentMessages,
      List.flatten, List.append_nil, List.mem_singleton] at hmsg
    subst hmsg
    rfl
  · intro jobs out h msg hmsg
    cases jobs with
    | nil =>
      rw [createDispatchJobs_nil] at h
      cases h
      simp [messagesOf] at hmsg
    | cons j js =>
      obtain ⟨-, rfl⟩ := (createDispatchJobs_ok_iff m env (j :: js) (by simp) out).mp h
      simp only [messagesOf, List.map_cons, List.map_nil, DriverCall.sentMessages,
        List.flatten, List.append_nil, List.mem_map] at hmsg
      obtain ⟨p, -, rfl⟩ := hmsg
      rfl

/-- Witness for the amended C3 at a concrete event with headers (single and
batch) and a concrete dispatch job with headers. -/
theorem record_headers_rule_witness :
    OutboxManager.createEvent mgr1 env0 (ev0.withHeaders [("a", "1")])
        = .ok (env0.gen 0, [.insert (OutboxManager.eventMessage mgr1 env0 0 (ev0.withHeaders [("a", "1")]))])
    ∧ (OutboxManager.eventMessage mgr1 env0 0 (ev0.withHeaders [("a", "1")])).headers
        = (if (ev0.withHeaders [("a", "1")]).headers.length > 0
            then some (ev0.withHeaders [("a", "1")]).headers else none)
    ∧ ([OutboxManager.eventMessage mgr1 env0 0 (ev0.withHeaders [("a", "1")])][0]?).map
          OutboxMessage.headers
        = (([ev0.withHeaders [("a", "1")]] : List CreateEventDto)[0]?).map
            (fun ev => if ev.headers.length > 0 then some ev.headers else none)
    ∧ (OutboxManager.dispatchJobMessage mgr1 env0 0 jobWithHeaders).headers = none :=
  ⟨rfl,
   (record_headers_rule mgr1 env0).1 (ev0.withHeaders [("a", "1")]) _ rfl
     (OutboxManager.eventMessage mgr1 env0 0 (ev0.withHeaders [("a", "1")]))
     (by simp [messagesOf, DriverCall.sentMessages]),
   (record_headers_rule mgr1 env0).2.2.1 [ev0.withHeaders [("a", "1")]]
     [OutboxManager.eventMessage mgr1 env0 0 (ev0.withHeaders [("a", "1")])]
     ((List.range 1).map env0.gen,
       [DriverCall.insertBatch [OutboxManager.eventMessage mgr1 env0 0 (ev0.withHeaders [("a", "1")])]])
     rfl rfl 0 (by decide),
   (record_headers_rule mgr1 env0).2.2.2.2.1 jobWithHeaders _ rfl
     (OutboxManager.dispatchJobMessage mgr1 env0 0 jobWithHeaders)
     (by simp [messagesOf, DriverCall.sentMessages])⟩

/-- C6: with a non-empty client id, each batch method resolves the empty
list to the empty result with no driver call; on a non-empty list of n DTOs
it returns n identifiers positionally aligned with the input, performs
exactly one driver call — an insertBatch of exactly n records carrying those
identifiers in order — and no other call. -/
theorem batch_alignment (m : OutboxManager) (env : Env) (hc : m.clientId ≠ "") :
    (m.createEvents env [] = .ok ([], []))
    ∧ (m.createDispatchJobs env [] = .ok ([], []))
    ∧ (m.createAuditLogs env [] = .ok ([], []))
    ∧ (∀ evs : List CreateEventDto, evs ≠ [] → ∃ ids msgs,
        m.createEvents env evs = .ok (ids, [DriverCall.insertBatch msgs])
        ∧ ids.length = evs.length ∧ msgs.length = evs.length
        ∧ msgs.map OutboxMessage.id = ids
        ∧ ∀ i, i < evs.length →
            msgs[i]? = (evs[i]?).map (fun ev => m.eventMessage env i ev))
    ∧ (∀ jobs : List CreateDispatchJobDto, jobs ≠ [] → ∃ ids msgs,
        m.createDispatchJobs env jobs = .ok (ids, [DriverCall.insertBatch msgs])
        ∧ ids.length = jobs.length ∧ msgs.length = jobs.length
        ∧ msgs.map OutboxMessage.id = ids
        ∧ ∀ i, i < jobs.length →
            msgs[i]? = (jobs[i]?).map (fun job => m.dispatchJobMessage env i job))
    ∧ (∀ als : List CreateAuditLogDto, als ≠ [] → ∃ ids msgs,
        m.createAuditLogs env als = .ok (ids, [DriverCall.insertBatch msgs])
        ∧ ids.length = als.length ∧ msgs.length = als.length
        ∧ msgs.map OutboxMessage.id = ids
        ∧ ∀ i, i < als.length →
            msgs[i]? = (als[i]?).map (fun al => m.auditLogMessage env i al)) := by
  refine ⟨createEvents_nil m env, createDispatchJobs_nil m env, createAuditLogs_nil m env,
    ?_, ?_, ?_⟩
  · intro evs hne
    refine ⟨(List.range evs.length).map env.gen,
      evs.enum.map (fun p => m.eventMessage env p.1 p.2), ?_, ?_, ?_, ?_, ?_⟩
    · exact (createEvents_ok_iff m env evs hne _).mpr ⟨hc, rfl⟩
    · simp
    · simp [List.enum_eq_enumFrom]
    · exact batch_ids_eq env evs _ (fun p => rfl)
    · intro i hi
      exact batch_msgs_getElem evs _ i
  · intro jobs hne
    refine ⟨(List.range jobs.length).map env.gen,
      jobs.enum.map (fun p => m.dispatchJobMessage env p.1 p.2), ?_, ?_, ?_, ?_, ?_⟩
    · exact (createDispatchJobs_ok_iff m env jobs hne _).mpr ⟨hc, rfl⟩
    · simp
    · simp [List.enum_eq_enumFrom]
    · exact batch_ids_eq env jobs _ (fun p => rfl)
    · intro i hi
      exact batch_msgs_getElem jobs _ i
  · intro als hne
    refine ⟨(List.range als.length).map env.gen,
      als.enum.map (fun p => m.auditLogMessage env p.1 p.2), ?_, ?_, ?_, ?_, ?_⟩
    · exact (createAuditLogs_ok_iff m env als hne _).mpr ⟨hc, rfl⟩
    · simp
    · simp [List.enum_eq_enumFrom]
    · exact batch_ids_eq env als _ (fun p => rfl)
    · intro i hi
      exact batch_msgs_getElem als _ i

theorem event_toPayload_lookup (d : CreateEventDto) (k : String) :
    lookupKey d.toPayload k
      = (([("specVersion", some (.str "1.0")),
           ("type", some (.str d.type)),
           ("source", d.source.map .str),
           ("subject", d.subject.map .str),
           ("data", some (.str (Json.stringify (.obj d.data)))),
           ("correlationId", d.correlationId.map .str),
           ("causationId", d.causationId.map .str),
           ("deduplicationId", d.deduplicationId.map .str),
           ("messageGroup", d.messageGroup.map .str),
           ("contextData", if d.contextData.length > 0
              then some (.arr (d.contextData.map contextEntryJson)) else none)]
          : List (String × Option Json)).lookup k).join := by
  unfold lookupKey CreateEventDto.toPayload
  refine lookup_filterNulls _ k ?_
  show (["specVersion", "type", "source", "subject", "data", "correlationId",
         "causationId", "deduplicationId", "messageGroup", "contextData"]
        : List String).Nodup
  decide

/-- C7: the Event payload always carries specVersion "1.0", the type, and
the JSON string of the data mapping, and omits every unset optional field
entirely; concretely, the payload of a freshly created event has exactly
the three keys specVersion, type and data. -/
theorem event_payload_omits_unset (d : CreateEventDto) :
    lookupKey d.toPayload "specVersion" = some (.str "1.0")
    ∧ lookupKey d.toPayload "type" = some (.str d.type)
    ∧ lookupKey d.toPayload "data" = some (.str (Json.stringify (.obj d.data)))
    ∧ (d.source = none → lookupKey d.toPayload "source" = none)
    ∧ (d.subject = none → lookupKey d.toPayload "subject" = none)
    ∧ (d.correlationId = none → lookupKey d.toPayload "correlationId" = none)
    ∧ (d.causationId = none → lookupKey d.toPayload "causationId" = none)
    ∧ (d.deduplicationId = none → lookupKey d.toPayload "deduplicationId" = none)
    ∧ (d.messageGroup = none → lookupKey d.toPayload "messageGroup" = none)
    ∧ (d.contextData = [] → lookupKey d.toPayload "contextData" = none)
    ∧ (CreateEventDto.create "user.registered" [("userId", .str "123")]).toPayload
        = [("specVersion", .str "1.0"), ("type", .str "user.registered"),
           ("data", .str "\x7b\"userId\":\"123\"\x7d")] := by
  refine ⟨?_, ?_, ?_, ?_, ?_, ?_, ?_, ?_, ?_, ?_, ?_⟩
  · rw [event_toPayload_lookup]
    simp [List.lookup_cons]
  · rw [event_toPayload_lookup]
    simp [List.lookup_cons]
  · rw [event_toPayload_lookup]
    simp [List.lookup_cons]
  · intro h
    rw [event_toPayload_lookup, h]
    simp [List.lookup_cons]
  · intro h
    rw [event_toPayload_lookup, h]
    simp [List.lookup_cons]
  · intro h
    rw [event_toPayload_lookup, h]
    simp [List.lookup_cons]
  · intro h
    rw [event_toPayload_lookup, h]
    simp [List.lookup_cons]
  · intro h
    rw [event_toPayload_lookup, h]
    simp [List.lookup_cons]
  · intro h
    rw [event_toPayload_lookup, h]
    simp [List.lookup_cons]
  · intro h
    rw [event_toPayload_lookup, h]
    simp [List.lookup_cons]
  · rfl

/-- Witness for C7 at the concrete event of the spec's example. -/
theorem event_payload_omits_unset_witness :
    ev0.source = none
    ∧ lookupKey ev0.toPayload "source" = none
    ∧ lookupKey ev0.toPayload "type" = some (.str "user.registered") :=
  ⟨rfl, (event_payload_omits_unset ev0).2.2.2.1 rfl,
    (event_payload_omits_unset ev0).2.1⟩

theorem mergeObj_twice_lookup (base h1 h2 : List (String × String)) (k : String) :
    (mergeObj (mergeObj base h1) h2).lookup k
      = ((h2.lookup k).or ((h1.lookup k).or (base.lookup k))) := by
  rw [mergeObj_lookup, mergeObj_lookup]

/-- C8: for every with-method of all three DTO variants, calling a scalar
with-method twice keeps the latest value; the map-valued withHeaders and
withMetadata spread-merge (new keys win on lookup, old keys retained);
withContextData appends; concretely, successive withHeaders of disjoint
singletons retains both entries.  (The builders are modelled as pure
copy-on-write values, so a with-call cannot mutate the original instance by
construction.) -/
theorem with_method_semantics :
    (∀ (d : CreateEventDto) a b, ((d.withSource a).withSource b).source = some b)
    ∧ (∀ (d : CreateEventDto) a b, ((d.withSubject a).withSubject b).subject = some b)
    ∧ (∀ (d : CreateEventDto) a b,
        ((d.withCorrelationId a).withCorrelationId b).correlationId = some b)
    ∧ (∀ (d : CreateEventDto) a b,
        ((d.withCausationId a).withCausationId b).causationId = some b)
    ∧ (∀ (d : CreateEventDto) a b,
        ((d.withDeduplicationId a).withDeduplicationId b).deduplicationId = some b)
    ∧ (∀ (d : CreateEventDto) a b,
        ((d.withMessageGroup a).withMessageGroup b).messageGroup = some b)
    ∧ (∀ (d : CreateEventDto) h1 h2 k,
        (((d.withHeaders h1).withHeaders h2).headers).lookup k
          = ((h2.lookup k).or ((h1.lookup k).or (d.headers.lookup k))))
    ∧ (∀ (d : CreateEventDto) c1 c2,
        ((d.withContextData c1).withContextData c2).contextData = (d.contextData ++ c1) ++ c2)
    ∧ (∀ (d : CreateDispatchJobDto) a b, ((d.withSubject a).withSubject b).subject = some b)
    ∧ (∀ (d : CreateDispatchJobDto) a b,
        ((d.withCorrelationId a).withCorrelationId b).correlationId = some b)
    ∧ (∀ (d : CreateDispatchJobDto) a b, ((d.withEventId a).withEventId b).eventId = some b)
    ∧ (∀ (d : CreateDispatchJobDto) a b,
        ((d.withPayloadContentType a).withPayloadContentType b).payloadContentType = b)
    ∧ (∀ (d : CreateDispatchJobDto) a b, ((d.withDataOnly a).withDataOnly b).dataOnly = b)
    ∧ (∀ (d : CreateDispatchJobDto) a b,
        ((d.withMessageGroup a).withMessageGroup b).messageGroup = some b)
    ∧ (∀ (d : CreateDispatchJobDto) a b, ((d.withSequence a).withSequence b).sequence = some b)
    ∧ (∀ (d : CreateDispatchJobDto) a b,
        ((d.withTimeoutSeconds a).withTimeoutSeconds b).timeoutSeconds = b)
    ∧ (∀ (d : CreateDispatchJobDto) a b, ((d.withMaxRetries a).withMaxRetries b).maxRetries = b)
    ∧ (∀ (d : CreateDispatchJobDto) a b,
        ((d.withRetryStrategy a).withRetryStrategy b).retryStrategy = some b)
    ∧ (∀ (d : CreateDispatchJobDto) a b,
        ((d.withScheduledFor a).withScheduledFor b).scheduledFor = some b)
    ∧ (∀ (d : CreateDispatchJobDto) a b, ((d.withExpiresAt a).withExpiresAt b).expiresAt = some b)
    ∧ (∀ (d : CreateDispatchJobDto) a b,
        ((d.withIdempotencyKey a).withIdempotencyKey b).idempotencyKey = some b)
    ∧ (∀ (d : CreateDispatchJobDto) a b, ((d.withExternalId a).withExternalId b).externalId = some b)
    ∧ (∀ (d : CreateDispatchJobDto) m1 m2 k,
        (((d.withMetadata m1).withMetadata m2).metadata).lookup k
          = ((m2.lookup k).or ((m1.lookup k).or (d.metadata.lookup k))))
    ∧ (∀ (d : CreateDispatchJobDto) h1 h2 k,
        (((d.withHeaders h1).withHeaders h2).headers).lookup k
          = ((h2.lookup k).or ((h1.lookup k).or (d.headers.lookup k))))
    ∧ (∀ (d : CreateAuditLogDto) a b,
        ((d.withOperationData a).withOperationData b).operationData = some b)
    ∧ (∀ (d : CreateAuditLogDto) a b,
        ((d.withPrincipalId a).withPrincipalId b).principalId = some b)
    ∧ (∀ (d : CreateAuditLogDto) a b,
        ((d.withPerformedAt a).withPerformedAt b).performedAt = some b)
    ∧ (∀ (d : CreateAuditLogDto) a b, ((d.withSource a).withSource b).source = some b)
    ∧ (∀ (d : CreateAuditLogDto) a b,
        ((d.withCorrelationId a).withCorrelationId b).correlationId = some b)
    ∧ (∀ (d : CreateAuditLogDto) m1 m2 k,
        (((d.withMetadata m1).withMetadata m2).metadata).lookup k
          = ((m2.lookup k).or ((m1.lookup k).or (d.metadata.lookup k))))
    ∧ (∀ (d : CreateAuditLogDto) h1 h2 k,
        (((d.withHeaders h1).withHeaders h2).headers).lookup k
          = ((h2.lookup k).or ((h1.lookup k).or (d.headers.lookup k))))
    ∧ ((ev0.withHeaders [("a", "1")]).withHeaders [("b", "2")]).headers
        = [("a", "1"), ("b", "2")] := by
  refine ⟨?_, ?_, ?_, ?_, ?_, ?_, ?_, ?_, ?_, ?_, ?_, ?_, ?_, ?_, ?_, ?_,
      ?_, ?_, ?_, ?_, ?_, ?_, ?_, ?_, ?_, ?_, ?_, ?_, ?_, ?_, ?_, ?_⟩ <;>
    intros <;>
    first
      | rfl
      | exact mergeObj_twice_lookup _ _ _ _

theorem dispatch_toPayload_lookup (d : CreateDispatchJobDto) (k : String) :
    lookupKey d.toPayload k
      = (([("source", some (.str d.source)),
           ("code", some (.str d.code)),
           ("targetUrl", some (.str d.targetUrl)),
           ("payload", some (.str d.payload)),
           ("payloadContentType", some (.str d.payloadContentType)),
           ("dispatchPoolId", some (.str d.dispatchPoolId)),
           ("subject", d.subject.map .str),
           ("correlationId", d.correlationId.map .str),
           ("eventId", d.eventId.map .str),
           ("metadata", if d.metadata.length > 0 then some (strMapJson d.metadata) else none),
           ("headers", if d.headers.length > 0 then some (strMapJson d.headers) else none),
           ("dataOnly", some (.bool d.dataOnly)),
           ("messageGroup", d.messageGroup.map .str),
           ("sequence", d.sequence.map .num),
           ("timeoutSeconds", some (.num d.timeoutSeconds)),
           ("maxRetries", some (.num d.maxRetries)),
           ("retryStrategy", d.retryStrategy.map .str),
           ("scheduledFor", d.scheduledFor.map .str),
           ("expiresAt", d.expiresAt.map .str),
           ("idempotencyKey", d.idempotencyKey.map .str),
           ("externalId", d.externalId.map .str)]
          : List (String × Option Json)).lookup k).join := by
  unfold lookupKey CreateDispatchJobDto.toPayload
  refine lookup_filterNulls _ k ?_
  show (["source", "code", "targetUrl", "payload", "payloadContentType", "dispatchPoolId",
         "subject", "correlationId", "eventId", "metadata", "headers", "dataOnly",
         "messageGroup", "sequence", "timeoutSeconds", "maxRetries", "retryStrategy",
         "scheduledFor", "expiresAt", "idempotencyKey", "externalId"]
        : List String).Nodup
  decide

/-- C9: `CreateDispatchJobDto.create` stores a string payload argument
unchanged and JSON.stringify-es any non-string payload argument, so the
stored payload field and the payload key of `toPayload` are always
strings. -/
theorem dispatch_payload_always_string :
    (∀ source code targetUrl s poolId,
        (CreateDispatchJobDto.create source code targetUrl (.str s) poolId).payload = s)
    ∧ (∀ source code targetUrl p poolId, (∀ s, p ≠ .str s) →
        (CreateDispatchJobDto.create source code targetUrl p poolId).payload = Json.stringify p)
    ∧ (∀ d : CreateDispatchJobDto, lookupKey d.toPayload "payload" = some (.str d.payload)) := by
  refine ⟨fun source code targetUrl s poolId => rfl, ?_, ?_⟩
  · intro source code targetUrl p poolId h
    cases p with
    | str sv => exact absurd rfl (h sv)
    | null => rfl
    | bool b => rfl
    | num n => rfl
    | arr xs => rfl
    | obj fs => rfl
  · intro d
    rw [dispatch_toPayload_lookup]
    simp [List.lookup_cons]

/-- Witness for C9 at a concrete object payload and a concrete job. -/
theorem dispatch_payload_always_string_witness :
    (CreateDispatchJobDto.create "svc" "c" "https://x"
        (.obj [("orderId", .str "123")]) "pool-1").payload
      = Json.stringify (.obj [("orderId", .str "123")])
    ∧ lookupKey job0.toPayload "payload" = some (.str job0.payload) :=
  ⟨dispatch_payload_always_string.2.1 "svc" "c" "https://x" _ "pool-1"
      (fun _ h => Json.noConfusion h),
   dispatch_payload_always_string.2.2 job0⟩

/-- C10: `toPayload` drops exactly the keys whose pre-filter value is
null/undefined (with empty maps and lists first mapped to null), and every
other falsy value is emitted: dataOnly false, a zero number and the empty
string all appear in the payload, while empty metadata/headers/contextData
do not. -/
theorem filter_nulls_exact :
    (∀ (l : List (String × Option Json)) (k : String) (v : Json),
        (k, v) ∈ filterNulls l ↔ (k, some v) ∈ l)
    ∧ (∀ d : CreateDispatchJobDto, lookupKey d.toPayload "dataOnly" = some (.bool d.dataOnly))
    ∧ lookupKey (job0.withDataOnly false).toPayload "dataOnly" = some (.bool false)
    ∧ lookupKey (ev0.withSource "").toPayload "source" = some (.str "")
    ∧ lookupKey (job0.withSequence 0).toPayload "sequence" = some (.num 0)
    ∧ lookupKey job0.toPayload "metadata" = none
    ∧ lookupKey job0.toPayload "headers" = none
    ∧ lookupKey ev0.toPayload "contextData" = none := by
  refine ⟨mem_filterNulls, ?_, rfl, rfl, rfl, rfl, rfl, rfl⟩
  intro d
  rw [dispatch_toPayload_lookup]
  simp [List.lookup_cons]

/-- Witness for C6 at a concrete manager with a non-empty client id. -/
theorem batch_alignment_witness :
    mgr1.clientId ≠ ""
    ∧ OutboxManager.createEvents mgr1 env0 [] = .ok ([], [])
    ∧ OutboxManager.createDispatchJobs mgr1 env0 [] = .ok ([], []) :=
  ⟨by decide,
   (batch_alignment mgr1 env0 (by decide)).1,
   (batch_alignment mgr1 env0 (by decide)).2.1⟩
